import Mathlib

/-!
Shallow embedding of `src/front_end/src/app/(main)/comic/page.tsx`
(the comic page of the NASASpaceChallenge front end).

The React component state is modelled by `PageState`; observable external
effects (the call to the external generator, blob-URL releases, session
installation, history appends, the busy flag, downloads) are modelled by
explicit event traces.  The asynchronous `handleGenerate` is modelled as an
atomic step parameterised by the outcome of the external `generateComic`
call (an `Except`), by the random gradient index, and by the fresh session
id (`Date.now()`); the page index is an `Int`, matching JavaScript number
arithmetic on `prev - 1` / `total - 1`.
-/

namespace Comic

/-- A generated comic page (`pages` element of `ComicSessionData`). -/
structure Page where
  pageNumber : Nat
  imageUrl : String
  title : Option String
deriving Repr, DecidableEq

/-- A comic session (`ComicSession` / `ComicSessionData` in the source). -/
structure ComicSession where
  id : String
  storyIdea : String
  pagesRequested : Nat
  pages : List Page
  gradientFrom : String
  gradientTo : String
deriving Repr, DecidableEq

/-- The fixed gradient palette (`gradientPalette` in the source). -/
def gradientPalette : List (String × String) :=
  [("#fddb92", "#d1fdff"),
   ("#f6d365", "#fda085"),
   ("#a1c4fd", "#c2e9fb"),
   ("#ffecd2", "#fcb69f"),
   ("#fccb90", "#d57eeb"),
   ("#f9d423", "#ff4e50")]

/-- `pickGradient`: `gradientPalette[index % gradientPalette.length]`. -/
def pickGradient (index : Nat) : String × String :=
  gradientPalette.getD (index % gradientPalette.length) ("", "")

/-- `page.imageUrl.startsWith("blob:")`: the page's image is a
locally-created temporary object URL that must be revoked (stated over
the character list so that the kernel can evaluate it). -/
def isBlobUrl (u : String) : Bool := "blob:".data.isPrefixOf u.data

/-- `releaseSessionResources`: for a session (or null), the object URLs
revoked, in order — every page whose `imageUrl` starts with `blob:`. -/
def releaseSessionResources : Option ComicSession → List String
  | none => []
  | some value =>
      (value.pages.filter (fun page => isBlobUrl page.imageUrl)).map (·.imageUrl)

/-- JavaScript `String.prototype.trim()`: whitespace removed from both
ends (structural, so that the kernel can evaluate it). -/
def jsTrim (s : String) : String :=
  ⟨((s.data.dropWhile Char.isWhitespace).reverse.dropWhile Char.isWhitespace).reverse⟩

/-- The component state of `ComicPage` plus the history log held by the
app context (`useAppContext`). -/
structure PageState where
  storyIdea : String
  pagesRequested : Nat
  isGenerating : Bool
  isDialogOpen : Bool
  activePageIndex : Int
  comicSession : Option ComicSession
  comicHistory : List String
deriving Repr, DecidableEq

/-- Observable effects of a `handleGenerate` run. -/
inductive Event where
  | busySet
  | busyClear
  | genCall (story : String) (count : Nat)
  | release (url : String)
  | install (session : ComicSession)
  | historyAdd (story : String)
  | logError
deriving Repr, DecidableEq

/-- The release events of a trace, as the list of released URLs in order. -/
def releasedUrls : List Event → List String
  | [] => []
  | Event.release u :: t => u :: releasedUrls t
  | _ :: t => releasedUrls t

/-- The history-append events of a trace, in order. -/
def historyAdds : List Event → List String
  | [] => []
  | Event.historyAdd s :: t => s :: historyAdds t
  | _ :: t => historyAdds t

/-- Result of one `handleGenerate` invocation: the new state and the trace
of observable effects, in program order. -/
structure GenResult where
  state : PageState
  trace : List Event
deriving Repr, DecidableEq

/-- `handleGenerate(idea?, pageCount?)`, run to settlement.  `gen` is the
outcome of `await generateComic(story, count)`; `gradientIndex` is
`Math.floor(Math.random() * gradientPalette.length)`; `newId` is
`Date.now()` as a string.  Note the function checks only that the trimmed
story is non-empty: it performs no busy-flag check itself. -/
def handleGenerate (st : PageState) (idea : Option String) (pageCount : Option Nat)
    (gen : Except Unit (List Page)) (gradientIndex : Nat) (newId : String) : GenResult :=
  let story := jsTrim (idea.getD st.storyIdea)
  let count := pageCount.getD st.pagesRequested
  if story = "" then ⟨st, []⟩
  else
    match gen with
    | Except.error _ =>
        ⟨{ st with isGenerating := false },
         [Event.busySet, Event.genCall story count, Event.logError, Event.busyClear]⟩
    | Except.ok comic =>
        let g := pickGradient gradientIndex
        let releases := releaseSessionResources st.comicSession
        let newSession : ComicSession :=
          { id := newId, storyIdea := story, pagesRequested := count,
            pages := comic, gradientFrom := g.1, gradientTo := g.2 }
        ⟨{ st with comicSession := some newSession,
                   comicHistory := st.comicHistory ++ [story],
                   storyIdea := "",
                   activePageIndex := 0,
                   isGenerating := false },
         [Event.busySet, Event.genCall story count]
           ++ releases.map Event.release
           ++ [Event.install newSession, Event.historyAdd story, Event.busyClear]⟩

/-- The `disabled` condition of the main generate button:
`isGenerating || !storyIdea.trim()`. -/
def generateButtonDisabled (st : PageState) : Bool :=
  st.isGenerating || jsTrim st.storyIdea == ""

/-- Clicking the main generate button: a disabled button fires no click
handler; otherwise `handleGenerate()` runs with no arguments. -/
def clickGenerateButton (st : PageState) (gen : Except Unit (List Page))
    (gradientIndex : Nat) (newId : String) : GenResult :=
  if generateButtonDisabled st then ⟨st, []⟩
  else handleGenerate st none none gen gradientIndex newId

/-- The `useEffect` synchronizing viewer state with the session: a null
session forces the dialog closed; an index past `pages.length - 1` resets
to 0. -/
def sessionSyncEffect (st : PageState) : PageState :=
  match st.comicSession with
  | none => { st with isDialogOpen := false }
  | some s =>
      if st.activePageIndex > (s.pages.length : Int) - 1 then
        { st with activePageIndex := 0 }
      else st

/-- Navigation direction of the viewer chevrons. -/
inductive Direction where
  | prev
  | next
deriving Repr, DecidableEq

/-- `handleViewerChange(direction)`: cyclic prev/next over the active
session's pages (JavaScript number arithmetic, hence `Int`). -/
def handleViewerChange (st : PageState) (direction : Direction) : PageState :=
  match st.comicSession with
  | none => st
  | some session =>
      let total : Int := session.pages.length
      let i := st.activePageIndex
      let newIndex : Int :=
        match direction with
        | Direction.prev => if i = 0 then total - 1 else i - 1
        | Direction.next => if i = total - 1 then 0 else i + 1
      { st with activePageIndex := newIndex }

/-- ASCII letter or digit, i.e. a character NOT matched by the
case-insensitive regex class `[^a-z0-9]`. -/
def isAlnumAscii (c : Char) : Bool :=
  (('a' ≤ c) && (c ≤ 'z')) || (('A' ≤ c) && (c ≤ 'Z')) || (('0' ≤ c) && (c ≤ '9'))

/-- `replace(/[^a-z0-9]+/gi, "-")` over a character list: each maximal run
of non-alphanumeric characters becomes a single `-`.  The flag records
whether we are inside such a run. -/
def collapseRunsAux : Bool → List Char → List Char
  | _, [] => []
  | inRun, c :: rest =>
      if isAlnumAscii c then c :: collapseRunsAux false rest
      else if inRun then collapseRunsAux true rest
      else '-' :: collapseRunsAux true rest

/-- `storyIdea.replace(/[^a-z0-9]+/gi, "-")`. -/
def slugReplace (s : String) : String := ⟨collapseRunsAux false s.data⟩

/-- `.toLowerCase()` (ASCII lowering, character by character). -/
def lowerString (s : String) : String := ⟨s.data.map Char.toLower⟩

/-- `storyIdea.replace(/[^a-z0-9]+/gi, "-").toLowerCase() || "comic"`. -/
def safeName (storyIdea : String) : String :=
  let slug := lowerString (slugReplace storyIdea)
  if slug = "" then "comic" else slug

/-- The object of `JSON.stringify` in `handleDownload`. -/
structure DownloadPayload where
  story : String
  pages : List Page
deriving Repr, DecidableEq

/-- Observable effects of `handleDownload`: object-URL creation for the
JSON blob, the anchor click with its download filename, URL revocation. -/
inductive DlEvent where
  | created (url : String) (payload : DownloadPayload)
  | clicked (filename : String) (url : String)
  | revoked (url : String)
deriving Repr, DecidableEq

/-- `handleDownload`: no-op unless the session has at least one page;
otherwise create the blob URL, click the download link, revoke the URL.
`url` stands for the object URL returned by `URL.createObjectURL`. -/
def handleDownload (session : Option ComicSession) (url : String) : List DlEvent :=
  match session with
  | none => []
  | some s =>
      if s.pages.length = 0 then []
      else
        [DlEvent.created url ⟨s.storyIdea, s.pages⟩,
         DlEvent.clicked (safeName s.storyIdea ++ ".json") url,
         DlEvent.revoked url]

/-- A concrete state with the busy flag set and a non-empty prompt. -/
def busyState : PageState :=
  { storyIdea := "abc", pagesRequested := 1, isGenerating := true,
    isDialogOpen := false, activePageIndex := 0, comicSession := none,
    comicHistory := [] }

/-- A concrete idle state with an existing session holding a blob page. -/
def idleState : PageState :=
  { storyIdea := "new idea", pagesRequested := 2, isGenerating := false,
    isDialogOpen := false, activePageIndex := 0,
    comicSession := some
      { id := "1", storyIdea := "old idea", pagesRequested := 1,
        pages := [⟨1, "blob:old", none⟩], gradientFrom := "#fddb92",
        gradientTo := "#d1fdff" },
    comicHistory := ["old idea"] }

/-- The session object built by the success branch of `handleGenerate`. -/
def newSessionOf (st : PageState) (idea : Option String) (pageCount : Option Nat)
    (comic : List Page) (gi : Nat) (newId : String) : ComicSession :=
  { id := newId,
    storyIdea := jsTrim (idea.getD st.storyIdea),
    pagesRequested := pageCount.getD st.pagesRequested,
    pages := comic,
    gradientFrom := (pickGradient gi).1,
    gradientTo := (pickGradient gi).2 }

/-- A concrete two-page session. -/
def twoPageSession : ComicSession :=
  { id := "2", storyIdea := "two pages", pagesRequested := 2,
    pages := [⟨1, "https://p1", none⟩, ⟨2, "https://p2", some "t2"⟩],
    gradientFrom := "#f6d365", gradientTo := "#fda085" }

/-- A concrete state holding `twoPageSession` with the viewer open. -/
def twoPageState : PageState :=
  { storyIdea := "", pagesRequested := 2, isGenerating := false,
    isDialogOpen := true, activePageIndex := 1,
    comicSession := some twoPageSession, comicHistory := ["two pages"] }

/-- A concrete session whose prompt is the claim's slug example. -/
def tomJerrySession : ComicSession :=
  { id := "3", storyIdea := "Tom & Jerry!!", pagesRequested := 1,
    pages := [⟨1, "https://tj", none⟩],
    gradientFrom := "#a1c4fd", gradientTo := "#c2e9fb" }

theorem releasedUrls_append (a b : List Event) :
    releasedUrls (a ++ b) = releasedUrls a ++ releasedUrls b := by
  induction a with
  | nil => rfl
  | cons e t ih => cases e <;> simp [releasedUrls, ih]

theorem releasedUrls_map_release (l : List String) :
    releasedUrls (l.map Event.release) = l := by
  induction l with
  | nil => rfl
  | cons u t ih => simp [releasedUrls, ih]

theorem historyAdds_append (a b : List Event) :
    historyAdds (a ++ b) = historyAdds a ++ historyAdds b := by
  induction a with
  | nil => rfl
  | cons e t ih => cases e <;> simp [historyAdds, ih]

theorem historyAdds_map_release (l : List String) :
    historyAdds (l.map Event.release) = [] := by
  induction l with
  | nil => rfl
  | cons u t ih => simp [historyAdds, ih]

/-- C10: `handleGenerate` with a prompt that trims to the empty string
returns immediately: the state is unchanged and the trace is empty, so the
generator is never called and the busy flag is never set. -/
theorem generate_empty_prompt_noop (st : PageState) (idea : Option String)
    (pageCount : Option Nat) (gen : Except Unit (List Page)) (gi : Nat) (newId : String)
    (h : jsTrim (idea.getD st.storyIdea) = "") :
    handleGenerate st idea pageCount gen gi newId = ⟨st, []⟩ ∧
    Event.busySet ∉ (handleGenerate st idea pageCount gen gi newId).trace ∧
    ∀ s c, Event.genCall s c ∉ (handleGenerate st idea pageCount gen gi newId).trace := by
  unfold handleGenerate
  simp [h]

theorem generate_empty_prompt_noop_witness :
    jsTrim (Option.getD (some "   ") busyState.storyIdea) = "" ∧
    handleGenerate busyState (some "   ") none (Except.ok []) 0 "s1" = ⟨busyState, []⟩ :=
  ⟨by decide,
   (generate_empty_prompt_noop busyState (some "   ") none (Except.ok []) 0 "s1"
     (by decide)).1⟩

/-- C4: when the external generator call fails, the prior session, history,
prompt and viewer index are preserved, the busy flag ends cleared, the
error is logged, and no session is installed and no history entry added. -/
theorem generate_failure_preserves_state (st : PageState) (idea : Option String)
    (pageCount : Option Nat) (gi : Nat) (newId : String)
    (h : jsTrim (idea.getD st.storyIdea) ≠ "") :
    (handleGenerate st idea pageCount (Except.error ()) gi newId).state.comicSession
        = st.comicSession ∧
    (handleGenerate st idea pageCount (Except.error ()) gi newId).state.comicHistory
        = st.comicHistory ∧
    (handleGenerate st idea pageCount (Except.error ()) gi newId).state.storyIdea
        = st.storyIdea ∧
    (handleGenerate st idea pageCount (Except.error ()) gi newId).state.activePageIndex
        = st.activePageIndex ∧
    (handleGenerate st idea pageCount (Except.error ()) gi newId).state.isGenerating
        = false ∧
    Event.logError ∈ (handleGenerate st idea pageCount (Except.error ()) gi newId).trace ∧
    (∀ s, Event.install s ∉
        (handleGenerate st idea pageCount (Except.error ()) gi newId).trace) ∧
    historyAdds (handleGenerate st idea pageCount (Except.error ()) gi newId).trace = [] := by
  unfold handleGenerate
  simp [h, historyAdds]

theorem generate_failure_preserves_state_witness :
    (handleGenerate idleState none none (Except.error ()) 0 "s2").state.comicSession
        = idleState.comicSession ∧
    (handleGenerate idleState none none (Except.error ()) 0 "s2").state.comicHistory
        = idleState.comicHistory ∧
    Event.logError ∈ (handleGenerate idleState none none (Except.error ()) 0 "s2").trace := by
  have h := generate_failure_preserves_state idleState none none 0 "s2" (by decide)
  exact ⟨h.1, h.2.1, h.2.2.2.2.2.1⟩

/-- C5: on success the new session's pages are exactly the list returned by
the generator (so their length is the generator's length, independent of
the requested page count), and `pagesRequested` is stored as requested. -/
theorem generate_session_pages_eq_generator (st : PageState) (idea : Option String)
    (pageCount : Option Nat) (comic : List Page) (gi : Nat) (newId : String)
    (h : jsTrim (idea.getD st.storyIdea) ≠ "") :
    ∃ ns, (handleGenerate st idea pageCount (Except.ok comic) gi newId).state.comicSession
        = some ns ∧
      ns.pages = comic ∧
      ns.pages.length = comic.length ∧
      ns.pagesRequested = pageCount.getD st.pagesRequested := by
  unfold handleGenerate
  simp [h]

theorem generate_session_pages_eq_generator_witness :
    ∃ ns, (handleGenerate idleState none (some 2)
        (Except.ok [⟨1, "https://a", none⟩, ⟨2, "https://b", none⟩, ⟨3, "https://c", none⟩])
        1 "s3").state.comicSession = some ns ∧
      ns.pages = [⟨1, "https://a", none⟩, ⟨2, "https://b", none⟩, ⟨3, "https://c", none⟩] ∧
      ns.pages.length = 3 ∧
      ns.pagesRequested = 2 := by
  have h := generate_session_pages_eq_generator idleState none (some 2)
    [⟨1, "https://a", none⟩, ⟨2, "https://b", none⟩, ⟨3, "https://c", none⟩] 1 "s3" (by decide)
  obtain ⟨ns, h1, h2, _, h4⟩ := h
  exact ⟨ns, h1, h2, by simp [h2], h4⟩

theorem handleGenerate_ok (st : PageState) (idea : Option String) (pageCount : Option Nat)
    (comic : List Page) (gi : Nat) (newId : String)
    (h : jsTrim (idea.getD st.storyIdea) ≠ "") :
    handleGenerate st idea pageCount (Except.ok comic) gi newId =
      ⟨{ st with comicSession := some (newSessionOf st idea pageCount comic gi newId),
                 comicHistory := st.comicHistory ++ [jsTrim (idea.getD st.storyIdea)],
                 storyIdea := "",
                 activePageIndex := 0,
                 isGenerating := false },
       [Event.busySet,
        Event.genCall (jsTrim (idea.getD st.storyIdea)) (pageCount.getD st.pagesRequested)]
         ++ (releaseSessionResources st.comicSession).map Event.release
         ++ [Event.install (newSessionOf st idea pageCount comic gi newId),
             Event.historyAdd (jsTrim (idea.getD st.storyIdea)), Event.busyClear]⟩ := by
  unfold handleGenerate newSessionOf
  simp [h]

/-- C3: a successful generation that replaces an existing session releases
exactly the blob URLs of the previous session (each exactly once when the
previous pages' URLs are distinct), releases no URL that is not among the
previous session's URLs — in particular nothing owned only by the new
session — and all releases occur strictly before the new session is
installed. -/
theorem generate_success_releases_old (st : PageState) (idea : Option String)
    (pageCount : Option Nat) (comic : List Page) (gi : Nat) (newId : String)
    (old : ComicSession) (hold : st.comicSession = some old)
    (h : jsTrim (idea.getD st.storyIdea) ≠ "") :
    releasedUrls (handleGenerate st idea pageCount (Except.ok comic) gi newId).trace
        = releaseSessionResources (some old) ∧
    ((old.pages.map Page.imageUrl).Nodup →
        ∀ u ∈ releaseSessionResources (some old),
          (releasedUrls
              (handleGenerate st idea pageCount (Except.ok comic) gi newId).trace).count u
            = 1) ∧
    (∀ p ∈ comic, p.imageUrl ∉ old.pages.map Page.imageUrl →
        p.imageUrl ∉
          releasedUrls (handleGenerate st idea pageCount (Except.ok comic) gi newId).trace) ∧
    (∃ ns pre post,
        (handleGenerate st idea pageCount (Except.ok comic) gi newId).trace
            = pre ++ Event.install ns :: post ∧
        (handleGenerate st idea pageCount (Except.ok comic) gi newId).state.comicSession
            = some ns ∧
        ns.pages = comic ∧
        releasedUrls pre = releaseSessionResources (some old) ∧
        releasedUrls post = []) := by
  rw [handleGenerate_ok st idea pageCount comic gi newId h, hold]
  have hurls : releasedUrls
      ([Event.busySet,
        Event.genCall (jsTrim (idea.getD st.storyIdea)) (pageCount.getD st.pagesRequested)]
        ++ (releaseSessionResources (some old)).map Event.release
        ++ [Event.install (newSessionOf st idea pageCount comic gi newId),
            Event.historyAdd (jsTrim (idea.getD st.storyIdea)), Event.busyClear])
      = releaseSessionResources (some old) := by
    rw [releasedUrls_append, releasedUrls_append, releasedUrls_map_release]
    simp [releasedUrls]
  have hsub : List.Sublist (releaseSessionResources (some old))
      (old.pages.map Page.imageUrl) := by
    unfold releaseSessionResources
    exact List.Sublist.map Page.imageUrl (List.filter_sublist old.pages)
  refine ⟨hurls, ?_, ?_, ?_⟩
  · intro hnd u hu
    rw [hurls]
    exact List.count_eq_one_of_mem (List.Nodup.sublist hsub hnd) hu
  · intro p _ hnotin
    rw [hurls]
    intro hmem
    exact hnotin (hsub.subset hmem)
  · refine ⟨newSessionOf st idea pageCount comic gi newId,
      [Event.busySet,
       Event.genCall (jsTrim (idea.getD st.storyIdea)) (pageCount.getD st.pagesRequested)]
        ++ (releaseSessionResources (some old)).map Event.release,
      [Event.historyAdd (jsTrim (idea.getD st.storyIdea)), Event.busyClear],
      by simp, rfl, rfl, ?_, rfl⟩
    rw [releasedUrls_append, releasedUrls_map_release]
    simp [releasedUrls]

theorem generate_success_releases_old_witness :
    releasedUrls (handleGenerate idleState none none
        (Except.ok [⟨1, "blob:new", none⟩]) 0 "s4").trace
      = ["blob:old"] ∧
    (releasedUrls (handleGenerate idleState none none
        (Except.ok [⟨1, "blob:new", none⟩]) 0 "s4").trace).count "blob:old" = 1 ∧
    "blob:new" ∉ releasedUrls (handleGenerate idleState none none
        (Except.ok [⟨1, "blob:new", none⟩]) 0 "s4").trace := by
  have h := generate_success_releases_old idleState none none [⟨1, "blob:new", none⟩] 0 "s4"
    { id := "1", storyIdea := "old idea", pagesRequested := 1,
      pages := [⟨1, "blob:old", none⟩], gradientFrom := "#fddb92", gradientTo := "#d1fdff" }
    rfl (by decide)
  refine ⟨?_, ?_, ?_⟩
  · rw [h.1]; rfl
  · rw [h.1]; decide
  · exact h.2.2.1 ⟨1, "blob:new", none⟩ (by decide) (by decide)

/-- C1 fails as stated: `handleGenerate` performs no busy-flag check, so a
re-entrant invocation while `isGenerating` is `true` (with a non-empty
prompt) does call the external generator and does append a history entry. -/
theorem busy_reentrant_call_counterexample :
    busyState.isGenerating = true ∧
    Event.genCall "abc" 1 ∈ (handleGenerate busyState none none (Except.ok []) 0 "s1").trace ∧
    (handleGenerate busyState none none (Except.ok []) 0 "s1").state.comicHistory
      = busyState.comicHistory ++ ["abc"] := by
  refine ⟨rfl, ?_, rfl⟩
  decide

/-- C1 amended: only the main generate button enforces the busy guard — it
is disabled while `isGenerating`, so clicking it while busy has no effect:
no generator call, no history entry, state unchanged. -/
theorem busy_button_click_noop (st : PageState) (gen : Except Unit (List Page))
    (gi : Nat) (newId : String) (h : st.isGenerating = true) :
    clickGenerateButton st gen gi newId = ⟨st, []⟩ := by
  unfold clickGenerateButton generateButtonDisabled
  simp [h]

theorem busy_button_click_noop_witness :
    busyState.isGenerating = true ∧
    clickGenerateButton busyState (Except.ok []) 0 "s1" = ⟨busyState, []⟩ :=
  ⟨rfl, busy_button_click_noop busyState (Except.ok []) 0 "s1" rfl⟩

/-- C9: on a successful generation, the gradient is picked from the fixed
palette (`pickGradient` returns the entry at index mod palette length for
every index), the prompt is appended to the history exactly once, the
prompt input is cleared, and the viewer index is reset to 0. -/
theorem generate_success_effects (st : PageState) (idea : Option String)
    (pageCount : Option Nat) (comic : List Page) (gi : Nat) (newId : String)
    (h : jsTrim (idea.getD st.storyIdea) ≠ "") :
    (∀ j : Nat, ∃ hj : j % gradientPalette.length < gradientPalette.length,
        pickGradient j = gradientPalette.get ⟨j % gradientPalette.length, hj⟩) ∧
    (handleGenerate st idea pageCount (Except.ok comic) gi newId).state.comicHistory
        = st.comicHistory ++ [jsTrim (idea.getD st.storyIdea)] ∧
    historyAdds (handleGenerate st idea pageCount (Except.ok comic) gi newId).trace
        = [jsTrim (idea.getD st.storyIdea)] ∧
    (handleGenerate st idea pageCount (Except.ok comic) gi newId).state.storyIdea = "" ∧
    (handleGenerate st idea pageCount (Except.ok comic) gi newId).state.activePageIndex = 0 ∧
    (∀ ns, (handleGenerate st idea pageCount (Except.ok comic) gi newId).state.comicSession
        = some ns → (ns.gradientFrom, ns.gradientTo) = pickGradient gi) := by
  rw [handleGenerate_ok st idea pageCount comic gi newId h]
  refine ⟨?_, rfl, ?_, rfl, rfl, ?_⟩
  · intro j
    have hj : j % gradientPalette.length < gradientPalette.length :=
      Nat.mod_lt j (by decide)
    refine ⟨hj, ?_⟩
    simp [pickGradient, List.get_eq_getElem, List.getElem?_eq_getElem hj]
  · rw [historyAdds_append, historyAdds_append, historyAdds_map_release]
    simp [historyAdds]
  · intro ns hns
    cases hns
    rfl

theorem generate_success_effects_witness :
    (handleGenerate idleState none none
        (Except.ok [⟨1, "https://w", none⟩]) 4 "s5").state.comicHistory
      = idleState.comicHistory ++ ["new idea"] ∧
    historyAdds (handleGenerate idleState none none
        (Except.ok [⟨1, "https://w", none⟩]) 4 "s5").trace = ["new idea"] ∧
    (handleGenerate idleState none none
        (Except.ok [⟨1, "https://w", none⟩]) 4 "s5").state.storyIdea = "" ∧
    (handleGenerate idleState none none
        (Except.ok [⟨1, "https://w", none⟩]) 4 "s5").state.activePageIndex = 0 := by
  have h := generate_success_effects idleState none none [⟨1, "https://w", none⟩] 4 "s5"
    (by decide)
  exact ⟨h.2.1, h.2.2.1, h.2.2.2.1, h.2.2.2.2.1⟩

/-- C6: viewer navigation is cyclic over the active session's pages:
`next` from the last index wraps to 0, `prev` from 0 wraps to the last
index, otherwise `next`/`prev` step by one; for a single-page session both
directions leave the (only valid) index unchanged. -/
theorem viewer_navigation_cyclic (st : PageState) (s : ComicSession)
    (hs : st.comicSession = some s)
    (h0 : 0 ≤ st.activePageIndex)
    (hn : st.activePageIndex < (s.pages.length : Int)) :
    (st.activePageIndex = (s.pages.length : Int) - 1 →
        (handleViewerChange st Direction.next).activePageIndex = 0) ∧
    (st.activePageIndex = 0 →
        (handleViewerChange st Direction.prev).activePageIndex
          = (s.pages.length : Int) - 1) ∧
    (st.activePageIndex < (s.pages.length : Int) - 1 →
        (handleViewerChange st Direction.next).activePageIndex
          = st.activePageIndex + 1) ∧
    (0 < st.activePageIndex →
        (handleViewerChange st Direction.prev).activePageIndex
          = st.activePageIndex - 1) ∧
    (s.pages.length = 1 →
        (handleViewerChange st Direction.next).activePageIndex = st.activePageIndex ∧
        (handleViewerChange st Direction.prev).activePageIndex = st.activePageIndex) := by
  have hnext : (handleViewerChange st Direction.next).activePageIndex
      = (if st.activePageIndex = (s.pages.length : Int) - 1 then 0
         else st.activePageIndex + 1) := by
    unfold handleViewerChange
    rw [hs]
  have hprev : (handleViewerChange st Direction.prev).activePageIndex
      = (if st.activePageIndex = 0 then (s.pages.length : Int) - 1
         else st.activePageIndex - 1) := by
    unfold handleViewerChange
    rw [hs]
  refine ⟨?_, ?_, ?_, ?_, ?_⟩
  · intro h1
    rw [hnext, if_pos h1]
  · intro h1
    rw [hprev, if_pos h1]
  · intro h1
    rw [hnext, if_neg (by omega)]
  · intro h1
    rw [hprev, if_neg (by omega)]
  · intro h1
    constructor
    · rw [hnext]
      split_ifs with h2 <;> omega
    · rw [hprev]
      split_ifs with h2 <;> omega

theorem viewer_navigation_cyclic_witness :
    (handleViewerChange twoPageState Direction.next).activePageIndex = 0 ∧
    (handleViewerChange twoPageState Direction.prev).activePageIndex
      = twoPageState.activePageIndex - 1 :=
  ⟨(viewer_navigation_cyclic twoPageState twoPageSession rfl (by decide) (by decide)).1
      (by decide),
   (viewer_navigation_cyclic twoPageState twoPageSession rfl (by decide)
      (by decide)).2.2.2.1 (by decide)⟩

/-- C7: the session-sync effect forces the dialog closed when the session
is null; when the index exceeds `pages.length - 1` it resets the index to
0 leaving the dialog and session untouched; consequently, starting from a
non-negative index, the resulting index lies within
`[0, pages.length - 1]` whenever the session has non-empty pages. -/
theorem viewer_sync_bounds (st : PageState) (h0 : 0 ≤ st.activePageIndex) :
    (st.comicSession = none → (sessionSyncEffect st).isDialogOpen = false) ∧
    (∀ s, st.comicSession = some s →
        st.activePageIndex > (s.pages.length : Int) - 1 →
        (sessionSyncEffect st).activePageIndex = 0 ∧
        (sessionSyncEffect st).isDialogOpen = st.isDialogOpen ∧
        (sessionSyncEffect st).comicSession = st.comicSession) ∧
    (∀ s, st.comicSession = some s → s.pages ≠ [] →
        0 ≤ (sessionSyncEffect st).activePageIndex ∧
        (sessionSyncEffect st).activePageIndex ≤ (s.pages.length : Int) - 1) := by
  refine ⟨?_, ?_, ?_⟩
  · intro hnone
    unfold sessionSyncEffect
    rw [hnone]
  · intro s hs hgt
    simp only [sessionSyncEffect, hs]
    rw [if_pos hgt]
    exact ⟨rfl, rfl, rfl⟩
  · intro s hs hne
    have hlen : 0 < s.pages.length := List.length_pos.mpr hne
    simp only [sessionSyncEffect, hs]
    split_ifs with hgt
    · refine ⟨le_refl 0, ?_⟩
      show (0 : Int) ≤ (s.pages.length : Int) - 1
      omega
    · exact ⟨h0, by omega⟩

theorem viewer_sync_bounds_witness :
    0 ≤ (sessionSyncEffect twoPageState).activePageIndex ∧
    (sessionSyncEffect twoPageState).activePageIndex
      ≤ (twoPageSession.pages.length : Int) - 1 :=
  (viewer_sync_bounds twoPageState (by decide)).2.2 twoPageSession rfl (by decide)

/-- C8: export with no session or zero pages produces no download events;
export with at least one page creates the blob URL, clicks a download of a
payload whose `story` is the session's `storyIdea` and whose `pages` is
the session's full page sequence, and revokes the URL immediately after
the click. -/
theorem download_export_behavior (session : Option ComicSession) (url : String) :
    handleDownload none url = [] ∧
    (∀ s, session = some s → s.pages = [] → handleDownload session url = []) ∧
    (∀ s, session = some s → s.pages ≠ [] →
        ∃ payload : DownloadPayload,
          payload.story = s.storyIdea ∧
          payload.pages = s.pages ∧
          handleDownload session url =
            [DlEvent.created url payload,
             DlEvent.clicked (safeName s.storyIdea ++ ".json") url,
             DlEvent.revoked url]) := by
  refine ⟨rfl, ?_, ?_⟩
  · intro s hs hempty
    rw [hs]
    simp [handleDownload, hempty]
  · intro s hs hne
    rw [hs]
    refine ⟨⟨s.storyIdea, s.pages⟩, rfl, rfl, ?_⟩
    simp [handleDownload, List.length_eq_zero, hne]

theorem download_export_behavior_witness :
    ∃ payload : DownloadPayload,
      payload.story = tomJerrySession.storyIdea ∧
      payload.pages = tomJerrySession.pages ∧
      handleDownload (some tomJerrySession) "blob:dl" =
        [DlEvent.created "blob:dl" payload,
         DlEvent.clicked (safeName tomJerrySession.storyIdea ++ ".json") "blob:dl",
         DlEvent.revoked "blob:dl"] :=
  (download_export_behavior (some tomJerrySession) "blob:dl").2.2 tomJerrySession rfl
    (by decide)

theorem collapseRunsAux_cons_ne_nil (c : Char) (l : List Char) :
    collapseRunsAux false (c :: l) ≠ [] := by
  by_cases hc : isAlnumAscii c <;> simp [collapseRunsAux, hc]

/-- C2 fails as stated: the slug keeps the separator produced by a
trailing non-alphanumeric run, so prompt `"Tom & Jerry!!"` yields filename
`tom-jerry-.json`, not `tom-jerry.json`. -/
theorem slug_filename_counterexample :
    safeName "Tom & Jerry!!" = "tom-jerry-" ∧
    safeName "Tom & Jerry!!" ≠ "tom-jerry" ∧
    DlEvent.clicked "tom-jerry.json" "blob:dl"
      ∉ handleDownload (some tomJerrySession) "blob:dl" ∧
    DlEvent.clicked "tom-jerry-.json" "blob:dl"
      ∈ handleDownload (some tomJerrySession) "blob:dl" := by
  decide

theorem safeName_of_ne_empty (p : String) (hp : p ≠ "") :
    safeName p = lowerString (slugReplace p) := by
  have hd : p.data ≠ [] := by
    intro hnil
    apply hp
    cases p with
    | mk d =>
        cases hnil
        rfl
  obtain ⟨c, l, hcl⟩ : ∃ c l, p.data = c :: l := by
    cases hdata : p.data with
    | nil => exact absurd hdata hd
    | cons c l => exact ⟨c, l, rfl⟩
  have hslug : lowerString (slugReplace p) ≠ "" := by
    unfold lowerString slugReplace
    rw [hcl]
    intro he
    have h2 : (collapseRunsAux false (c :: l)).map Char.toLower = [] :=
      congrArg String.data he
    rw [List.map_eq_nil_iff] at h2
    exact collapseRunsAux_cons_ne_nil c l h2
  unfold safeName
  rw [if_neg hslug]

/-- C2 amended: the download filename is the prompt with every maximal run
of non-alphanumeric characters collapsed to a single `-` (leading and
trailing runs included — no trimming) and lowercased, plus `.json`; the
`comic` fallback applies exactly when the prompt is the empty string.
Prompt `"Tom & Jerry!!"` yields `tom-jerry-.json`. -/
theorem slug_filename_amended :
    safeName "Tom & Jerry!!" = "tom-jerry-" ∧
    safeName "" = "comic" ∧
    (∀ p : String, p ≠ "" → safeName p = lowerString (slugReplace p)) ∧
    (∀ s url, s.pages ≠ [] →
        DlEvent.clicked (safeName s.storyIdea ++ ".json") url
          ∈ handleDownload (some s) url) := by
  refine ⟨rfl, rfl, safeName_of_ne_empty, ?_⟩
  intro s url hne
  simp [handleDownload, List.length_eq_zero, hne]

theorem slug_filename_amended_witness :
    safeName "Tom & Jerry!!" = lowerString (slugReplace "Tom & Jerry!!") ∧
    DlEvent.clicked (safeName tomJerrySession.storyIdea ++ ".json") "blob:dl"
      ∈ handleDownload (some tomJerrySession) "blob:dl" :=
  ⟨slug_filename_amended.2.2.1 "Tom & Jerry!!" (by decide),
   slug_filename_amended.2.2.2 tomJerrySession "blob:dl" (by decide)⟩

end Comic
